import Mathlib

/-!
Shallow embedding of the Meticulous → Gaggimate profile translation engine
(`src/translate_profile`): the variable resolver, the exit-trigger converter,
the curve segmentation / pump mapper and the transition selector, together
with the pydantic field bounds of the target data model.

Python floats are modelled as `ℚ` (all arithmetic the engine performs is
exact: +, -, abs, max, /10 and comparisons), Python strings as `String`,
Python's `warnings.warn` side channel as an explicit list of `Warning`
values carrying the data the formatted messages carry, and raised
exceptions as `Except TranslateError`.
-/

/- `Batteries` marks the `Rat` arithmetic operations `[irreducible]`, which
blocks `decide`/`rfl` evaluation of the embedded functions on concrete
inputs; restore the default reducibility (the kernel re-checks every
reduction itself, so this affects only elaboration). -/
set_option allowUnsafeReducibility true
attribute [semireducible] Rat.add Rat.sub Rat.mul Rat.inv

/-- Python's built-in `abs` on numbers. -/
def pyAbs (x : ℚ) : ℚ := if x < 0 then -x else x

/-- Python's built-in `max` on two numbers. -/
def pyMax (a b : ℚ) : ℚ := if a < b then b else a

/-- Python's `str.startswith`. -/
def strStartsWith (s p : String) : Bool := p.data.isPrefixOf s.data

/-- Python list indexing `xs[i]` for indices known to be in range
(out-of-range indices, which the source never produces, yield `(0, 0)`). -/
def pointAt (ps : List (ℚ × ℚ)) (i : Nat) : ℚ × ℚ := ps.getD i (0, 0)

/-- A raw JSON scalar as the resolver sees it: a number (Python int/float,
collapsed into `ℚ`; the source's post-resolution int/float coercion pass is
the identity on each branch) or a string. -/
inductive PValue where
  | num (q : ℚ)
  | str (s : String)
deriving DecidableEq, Repr, Inhabited

/-- One diagnostic emitted through Python's `warnings.warn` / returned
warning lists, carrying the data interpolated into the message text. -/
inductive Warning where
  /-- "Conflicting {type} triggers: {type} {ca} {va} AND {type} {cb} {vb} …". -/
  | conflict (ttype ca : String) (va : ℚ) (cb : String) (vb : ℚ)
  /-- "[Unsupported] {type} exit trigger is not supported …". -/
  | unsupported (ttype : String)
  /-- "[Validation] Duplicate {type} trigger: {type} {c} {v} (already have {type} {pc} {pv}) …". -/
  | duplicate (ttype c : String) (v : ℚ) (pc : String) (pv : ℚ)
  /-- "Unused variables: …". -/
  | unused (keys : List String)
  /-- "Stage '{name}': pressure {p} bar is outside typical range …". -/
  | pressureRange (stageName : String) (pressure : ℚ)
deriving DecidableEq, Repr

/-- A raised exception that aborts translation. -/
inductive TranslateError where
  /-- `ValueError(f"Variable resolution exceeded max depth {max_depth}")`. -/
  | maxDepth (ceiling : Nat)
  /-- `UndefinedVariableError(variable_name, location)` with the joined lists. -/
  | undefinedVariable (variableName location : String)
  /-- A pydantic `ValidationError` from a model field bound. -/
  | validation
deriving DecidableEq, Repr

/-- `Stage.type`, a pydantic `Literal["power", "flow", "pressure"]`
(validated at parse time, so downstream code only sees these three). -/
inductive StageType where
  | power
  | flow
  | pressure
deriving DecidableEq, Repr, Inhabited

/-- `models/meticulous.py` `Dynamics` (the unused `over` field is dropped). -/
structure Dynamics where
  points : List (ℚ × ℚ)
  interpolation : String
deriving DecidableEq, Repr, Inhabited

/-- `models/meticulous.py` `ExitTrigger`. -/
structure ExitTrigger where
  type : String
  value : ℚ
  relative : Bool
  comparison : String
deriving DecidableEq, Repr, Inhabited

/-- `models/meticulous.py` `Stage` (limits are unused by translation
after resolution and are dropped from the parsed model). -/
structure Stage where
  name : String
  key : String
  type : StageType
  dynamics : Dynamics
  exitTriggers : List ExitTrigger
deriving DecidableEq, Repr, Inhabited

/-- `models/meticulous.py` `MeticulousProfile` (fields translation reads). -/
structure MeticulousProfile where
  name : String
  id : String
  author : String
  author_id : String
  temperature : ℚ
  final_weight : ℚ
  stages : List Stage
deriving DecidableEq, Repr, Inhabited

/-- `models/gaggimate.py` `TransitionSettings` (pydantic: duration ≥ 0). -/
structure TransitionSettings where
  type : String
  duration : ℚ
  adaptive : Bool
deriving DecidableEq, Repr, Inhabited

/-- `models/gaggimate.py` `ExitTarget`. -/
structure ExitTarget where
  type : String
  operator : String
  value : ℚ
deriving DecidableEq, Repr, Inhabited

/-- `models/gaggimate.py` `PumpSettings` (pydantic: 0 ≤ pressure ≤ 15, flow ≥ 0). -/
structure PumpSettings where
  target : String
  pressure : ℚ
  flow : ℚ
deriving DecidableEq, Repr, Inhabited

/-- `models/gaggimate.py` `GaggimatePhase` (pydantic: duration > 0,
0 ≤ temperature ≤ 150). -/
structure GaggimatePhase where
  name : String
  phase : String
  valve : Nat
  duration : ℚ
  temperature : ℚ
  transition : TransitionSettings
  pump : PumpSettings
  targets : List ExitTarget
deriving DecidableEq, Repr, Inhabited

/-- `models/gaggimate.py` `GaggimateProfile` (pydantic: 0 ≤ temperature ≤ 150). -/
structure GaggimateProfile where
  label : String
  type : String
  description : String
  temperature : ℚ
  utility : Bool
  phases : List GaggimatePhase
deriving DecidableEq, Repr, Inhabited

/-! ## exit_mode.py -/

/-- `TRIGGER_TO_TARGET_TYPE.get(t, t)`. -/
def TRIGGER_TO_TARGET_TYPE (t : String) : String :=
  if t = "weight" then "volumetric"
  else if t = "time" then "time"
  else if t = "pressure" then "pressure"
  else if t = "flow" then "flow"
  else t

/-- `OPERATOR_MAP.get(c, "gte")`. -/
def OPERATOR_MAP (c : String) : String :=
  if c = ">=" then "gte"
  else if c = "<=" then "lte"
  else if c = ">" then "gt"
  else if c = "<" then "lt"
  else "gte"

/-- Membership in `UNSUPPORTED_TYPES = {"piston_position", "power", "user_interaction"}`. -/
def isUnsupportedType (t : String) : Bool :=
  t = "piston_position" || t = "power" || t = "user_interaction"

/-- `_check_trigger_pair_conflict`: each Python `if` block returns on a hit
and otherwise falls through; the comparison patterns of the blocks are
mutually exclusive, so the blocks linearize into one conditional chain. -/
def checkTriggerPairConflict (a b : ExitTrigger) : Option Warning :=
  if a.comparison = ">=" ∧ b.comparison = "<=" ∧ a.value > b.value then
    some (.conflict a.type ">=" a.value "<=" b.value)
  else if a.comparison = "<=" ∧ b.comparison = ">=" ∧ b.value > a.value then
    some (.conflict a.type "<=" a.value ">=" b.value)
  else if a.comparison = ">" ∧ b.comparison = "<" ∧ a.value ≥ b.value then
    some (.conflict a.type ">" a.value "<" b.value)
  else if a.comparison = "<" ∧ b.comparison = ">" ∧ b.value ≥ a.value then
    some (.conflict a.type "<" a.value ">" b.value)
  else if a.comparison = ">=" ∧ b.comparison = "<" ∧ a.value ≥ b.value then
    some (.conflict a.type ">=" a.value "<" b.value)
  else if a.comparison = "<" ∧ b.comparison = ">=" ∧ b.value ≥ a.value then
    some (.conflict a.type "<" a.value ">=" b.value)
  else if a.comparison = "<=" ∧ b.comparison = ">" ∧ a.value < b.value then
    some (.conflict a.type "<=" a.value ">" b.value)
  else if a.comparison = ">" ∧ b.comparison = "<=" ∧ b.value < a.value then
    some (.conflict a.type ">" a.value "<=" b.value)
  else
    none

/-- One step of building `triggers_by_type` (a Python dict of lists:
insertion-ordered keys, appended values). -/
def addToGroups (gs : List (String × List ExitTrigger)) (t : ExitTrigger) :
    List (String × List ExitTrigger) :=
  if gs.any (fun g => g.1 = t.type) then
    gs.map (fun g => if g.1 = t.type then (g.1, g.2 ++ [t]) else g)
  else
    gs ++ [(t.type, [t])]

/-- `triggers_by_type` grouping in `detect_conflicting_triggers`. -/
def groupByType (trs : List ExitTrigger) : List (String × List ExitTrigger) :=
  trs.foldl addToGroups []

/-- The `for i, trigger_a … for trigger_b in type_triggers[i+1:]` pair scan. -/
def pairConflicts : List ExitTrigger → List Warning
  | [] => []
  | a :: rest => rest.filterMap (checkTriggerPairConflict a) ++ pairConflicts rest

/-- `detect_conflicting_triggers` (the `len < 2: continue` guard is a no-op:
a singleton group yields no pairs). -/
def detect_conflicting_triggers (trs : List ExitTrigger) : List Warning :=
  ((groupByType trs).map (fun g => pairConflicts g.2)).flatten

/-- Lookup in the Python `seen_types` dict. -/
def lookupSeen (seen : List (String × String × ℚ)) (k : String) : Option (String × ℚ) :=
  (seen.find? (fun p => p.1 = k)).map (fun p => p.2)

/-- The main loop of `convert_exit_triggers`: returns
(targets, unsupported-warnings, duplicate-warnings), each in emission order. -/
def convertLoop (pst : ℚ) (seen : List (String × String × ℚ)) :
    List ExitTrigger → List ExitTarget × List Warning × List Warning
  | [] => ([], [], [])
  | t :: ts =>
    if isUnsupportedType t.type then
      let r := convertLoop pst seen ts
      (r.1, .unsupported t.type :: r.2.1, r.2.2)
    else
      match lookupSeen seen t.type with
      | some pv =>
        let r := convertLoop pst seen ts
        (r.1, r.2.1, .duplicate t.type t.comparison t.value pv.1 pv.2 :: r.2.2)
      | none =>
        let value := if t.type = "time" ∧ t.relative then pst + t.value else t.value
        let target : ExitTarget :=
          { type := TRIGGER_TO_TARGET_TYPE t.type
            operator := OPERATOR_MAP t.comparison
            value := value }
        let r := convertLoop pst (seen ++ [(t.type, t.comparison, t.value)]) ts
        (target :: r.1, r.2.1, r.2.2)

/-- `convert_exit_triggers`: conflict warnings first, then unsupported
warnings in trigger order, then (via `warnings.extend(duplicates)`) the
duplicate warnings in trigger order. -/
def convert_exit_triggers (trs : List ExitTrigger) (phase_start_time : ℚ) :
    List ExitTarget × List Warning :=
  let conflicts := detect_conflicting_triggers trs
  let r := convertLoop phase_start_time [] trs
  (r.1, conflicts ++ r.2.1 ++ r.2.2)

/-! ## translator.py — constants and per-phase computation -/

def MIN_PRESSURE : ℚ := 1
def MAX_PRESSURE : ℚ := 10

/-- Bloom phase pressure (for pressure-hold behavior during bloom). -/
def MIN_BLOOM_PRESSURE : ℚ := 2

def TRANSITION_MODE_SMART : String := "smart"
def TRANSITION_MODE_PRESERVE : String := "preserve"
def TRANSITION_MODE_LINEAR : String := "linear"
def TRANSITION_MODE_INSTANT : String := "instant"

/-- `SMART_INTERPOLATION_MAP.get(s, "linear")`. -/
def SMART_INTERPOLATION_MAP (s : String) : String :=
  if s = "linear" then "linear"
  else if s = "step" then "linear"
  else if s = "instant" then "instant"
  else if s = "bezier" then "ease-in-out"
  else if s = "spline" then "ease-in-out"
  else "linear"

/-- `PRESERVE_INTERPOLATION_MAP.get(s, "linear")`. -/
def PRESERVE_INTERPOLATION_MAP (s : String) : String :=
  if s = "linear" then "linear"
  else if s = "step" then "linear"
  else if s = "instant" then "linear"
  else if s = "bezier" then "bezier"
  else if s = "spline" then "spline"
  else "linear"

/-- `calculate_transition_duration`. -/
def calculate_transition_duration (pressure_delta : ℚ) (transition_type : String)
    (mode : String) : ℚ :=
  if transition_type = "instant" then 0
  else if mode = TRANSITION_MODE_PRESERVE then 5
  else if pressure_delta > 3 then 3/2
  else if pressure_delta < 1 then 7
  else 4

/-- `validate_pressure_range`, with its `warnings.warn` call reified as the
returned (possibly empty) warning list. -/
def validate_pressure_range (pressure : ℚ) (stage_name : String) : List Warning :=
  if pressure < MIN_PRESSURE ∨ pressure > MAX_PRESSURE then
    [.pressureRange stage_name pressure]
  else []

/-- `phase_type_map.get(key, key)` from `translate_profile`. -/
def phase_type_map (key : String) : String :=
  if key = "Fill" then "preinfusion"
  else if key = "Bloom" then "preinfusion"
  else if key = "blooming" then "preinfusion"
  else if key = "Extraction" then "brew"
  else key

/-- The stage-type dispatch computing a segment's `PumpSettings` from its
terminal point value, identical in the single-point and split branches of
`translate_profile`; the pressure-range diagnostic is returned with it.
The `else: raise ValueError` arm of the source is unreachable: `Stage.type`
is a pydantic `Literal` of exactly these three strings. -/
def pumpForStage (st : Stage) (target_value : ℚ) : PumpSettings × List Warning :=
  match st.type with
  | .power => ({ target := "pressure", pressure := target_value / 10, flow := 10 }, [])
  | .flow =>
    if strStartsWith st.key "blooming" ∧ target_value ≤ 1/10 then
      ({ target := "pressure", pressure := MIN_BLOOM_PRESSURE, flow := 0 }, [])
    else
      ({ target := "flow", pressure := 12, flow := target_value }, [])
  | .pressure =>
    ({ target := "pressure", pressure := target_value, flow := 10 },
     validate_pressure_range target_value st.name)

/-- The `for trigger … if trigger.type == "time": duration = …; break` scan. -/
def firstTimeTriggerValue : List ExitTrigger → Option ℚ
  | [] => none
  | t :: ts => if t.type = "time" then some t.value else firstTimeTriggerValue ts

/-- The transition-type selection of `translate_profile`, identical in the
single-point and split branches (in `TRANSITION_MODE_LINEAR` the source's
`if interpolation == "instant"` picks `"linear"` in both arms). -/
def transitionTypeFor (transition_mode : String) (st : Stage) : String :=
  if transition_mode = TRANSITION_MODE_SMART then
    if st.type = .flow then "instant"
    else SMART_INTERPOLATION_MAP st.dynamics.interpolation
  else if transition_mode = TRANSITION_MODE_PRESERVE then
    if st.type = .flow then "instant"
    else PRESERVE_INTERPOLATION_MAP st.dynamics.interpolation
  else if transition_mode = TRANSITION_MODE_LINEAR then
    if st.dynamics.interpolation = "instant" then "linear" else "linear"
  else "instant"

/-- The single-point (`num_points <= 1`) branch of `translate_profile`:
the emitted phase and the warnings issued while building it (pump-mapping
diagnostics, then the exit-trigger conversion warnings). -/
def singlePhase (meticulous_temperature : ℚ) (transition_mode : String)
    (st : Stage) : GaggimatePhase × List Warning :=
  let num_points := st.dynamics.points.length
  let target_value := if num_points = 1 then (pointAt st.dynamics.points 0).2 else 0
  let pw := pumpForStage st target_value
  -- duration = 30.0, overwritten by the first time trigger, floored at 0.1
  let duration0 := match firstTimeTriggerValue st.exitTriggers with
    | some v => v
    | none => 30
  let duration1 := if duration0 ≤ 0 then 1/10 else duration0
  let tw := convert_exit_triggers st.exitTriggers 0
  let transition_type := transitionTypeFor transition_mode st
  let time_trigger_found := st.exitTriggers.any (fun t => t.type = "time")
  let duration :=
    if time_trigger_found then duration1
    else
      let target_pressure :=
        if 0 < st.dynamics.points.length then (pointAt st.dynamics.points 0).2 else 0
      let pressure_delta := if st.type = .pressure then pyAbs (target_pressure - 0) else 0
      pyMax (calculate_transition_duration pressure_delta transition_type transition_mode) 1
  ({ name := st.name
     phase := phase_type_map st.key
     valve := 1
     duration := duration
     temperature := meticulous_temperature
     transition := { type := transition_type, duration := duration, adaptive := false }
     pump := pw.1
     targets := tw.1 },
   pw.2 ++ tw.2)

/-- One iteration (index `i`, for `i = 1 .. num_points-1`) of the
multi-point splitting branch of `translate_profile`. -/
def splitPhase (meticulous_temperature : ℚ) (transition_mode : String)
    (st : Stage) (i : Nat) : GaggimatePhase × List Warning :=
  let num_points := st.dynamics.points.length
  let p_prev := pointAt st.dynamics.points (i - 1)
  let p_curr := pointAt st.dynamics.points i
  let phase_duration0 := p_curr.1 - p_prev.1
  let phase_duration := if phase_duration0 ≤ 0 then 1/10 else phase_duration0
  let target_value := p_curr.2
  let pw := pumpForStage st target_value
  let transition_type := transitionTypeFor transition_mode st
  let pressure_delta :=
    if st.type = .pressure then pyAbs (target_value - p_prev.2) else 0
  let duration := calculate_transition_duration pressure_delta transition_type transition_mode
  -- exit triggers attach only to the final segment, with
  -- phase_start_time = stage.dynamics.points[i][0]
  let tw :=
    if i = num_points - 1 then
      convert_exit_triggers st.exitTriggers (pointAt st.dynamics.points i).1
    else ([], [])
  ({ name := st.name ++ " (" ++ toString i ++ "/" ++ toString (num_points - 1) ++ ")"
     phase := phase_type_map st.key
     valve := 1
     duration := phase_duration
     temperature := meticulous_temperature
     transition := { type := transition_type, duration := duration, adaptive := false }
     pump := pw.1
     targets := tw.1 },
   pw.2 ++ tw.2)

/-- The per-stage body of `translate_profile`'s main loop: the list of
emitted phases and the warnings issued while building them. (The inner
`if num_points >= 2` guard of the source is always true in its branch.) -/
def buildStagePhases (meticulous_temperature : ℚ) (transition_mode : String)
    (st : Stage) : List GaggimatePhase × List Warning :=
  let num_points := st.dynamics.points.length
  if num_points ≤ 1 then
    let r := singlePhase meticulous_temperature transition_mode st
    ([r.1], r.2)
  else
    let rs := (List.range (num_points - 1)).map
      (fun j => splitPhase meticulous_temperature transition_mode st (j + 1))
    (rs.map Prod.fst, (rs.map Prod.snd).flatten)

/-- The pydantic field bounds checked when the phase's models are
constructed (`TransitionSettings.duration ≥ 0`, `PumpSettings.pressure ∈
[0, 15]`, `PumpSettings.flow ≥ 0`, `GaggimatePhase.duration > 0`,
`GaggimatePhase.temperature ∈ [0, 150]`). -/
def phaseOk (ph : GaggimatePhase) : Bool :=
  decide (0 < ph.duration) && decide (0 ≤ ph.temperature) && decide (ph.temperature ≤ 150)
    && decide (0 ≤ ph.transition.duration)
    && decide (0 ≤ ph.pump.pressure) && decide (ph.pump.pressure ≤ 15)
    && decide (0 ≤ ph.pump.flow)

/-- One stage's translation as observed by the caller: pydantic raises a
`ValidationError` while constructing any out-of-bounds model, aborting the
call; otherwise the built phases and warnings are produced. -/
def translateStage (meticulous_temperature : ℚ) (transition_mode : String)
    (st : Stage) : Except TranslateError (List GaggimatePhase × List Warning) :=
  let r := buildStagePhases meticulous_temperature transition_mode st
  if r.1.all phaseOk then .ok r else .error .validation

/-! ## translator.py — variable resolution over the raw (pre-pydantic) document -/

/-- A raw curve point `[time, value]` before resolution. -/
structure RawPoint where
  t : PValue
  v : PValue
deriving DecidableEq, Repr, Inhabited

/-- A raw exit-trigger record before resolution. -/
structure RawTrigger where
  type : String
  value : PValue
  relative : Bool
  comparison : String
deriving DecidableEq, Repr, Inhabited

/-- A raw `limits` entry (only its `value` key is read or rewritten). -/
structure RawLimit where
  value : PValue
deriving DecidableEq, Repr, Inhabited

/-- A raw `dynamics` dict. -/
structure RawDynamics where
  points : List RawPoint
  interpolation : String
deriving DecidableEq, Repr, Inhabited

/-- A raw stage dict. -/
structure RawStage where
  name : String
  key : String
  type : String
  dynamics : RawDynamics
  exit_triggers : List RawTrigger
  limits : List RawLimit
deriving DecidableEq, Repr, Inhabited

/-- A `variables` entry (`key` without `$`, and the replacement value). -/
structure RawVariable where
  key : String
  value : PValue
deriving DecidableEq, Repr, Inhabited

/-- The raw profile document passed to `translate_profile`. (The JSON key
"variables" is a reserved word in Lean; the field is named `varTable`.) -/
structure RawDoc where
  name : String
  id : String
  author : String
  author_id : String
  temperature : ℚ
  final_weight : ℚ
  varTable : List RawVariable
  stages : List RawStage
deriving DecidableEq, Repr, Inhabited

/-- A Python `\w` character (ASCII fragment; profiles use ASCII keys). -/
def isWordChar (c : Char) : Bool := c.isAlphanum || c = '_'

/-- `VAR_PATTERN.match(val)` for a string already known to start with `$`:
`re.compile(r"\$(\w+)\b")` anchored at the start matches greedily, and the
trailing word boundary always holds after a maximal `\w+` run, so the group
is the longest word-character run after the `$` (none if that run is empty). -/
def varMatch (s : String) : Option String :=
  match s.data with
  | [] => none
  | _ :: rest =>
    let key := rest.takeWhile isWordChar
    if key.isEmpty then none else some (String.mk key)

/-- `var_lookup` built by a Python dict comprehension: a later duplicate
key overwrites an earlier one, so lookup finds the last binding. -/
def dictLookup (l : List (String × PValue)) (k : String) : Option PValue :=
  (l.reverse.find? (fun p => p.1 = k)).map (fun p => p.2)

/-- Default of the `max_depth` parameter of `resolve_variables`. -/
def RESOLVE_DEFAULT_MAX_DEPTH : Nat := 10

/-- The body of `resolve_value`, phrased structurally: at depth `depth` the
guard `depth > max_depth` holds exactly when `max_depth + 1 - depth = 0`,
so the recursion descends on that difference (each recursive call raises
`depth` by one). The post-resolution int/float coercion of the source is
the identity on every branch and is omitted. -/
def resolveValueAux (var_lookup : List (String × PValue)) (max_depth : Nat) :
    Nat → PValue → Except TranslateError PValue
  | 0, _ => .error (.maxDepth max_depth)
  | fuel + 1, val =>
    match val with
    | .str s =>
      if strStartsWith s "$" then
        match varMatch s with
        | some var_key =>
          match dictLookup var_lookup var_key with
          | some raw_value => resolveValueAux var_lookup max_depth fuel raw_value
          | none => .ok val
        | none => .ok val
      else .ok val
    | .num q => .ok (.num q)

/-- `resolve_value` inside `resolve_variables`: depth-bounded recursive
reference chasing, erroring with the ceiling once `depth > max_depth`. -/
def resolve_value (var_lookup : List (String × PValue)) (max_depth : Nat)
    (val : PValue) (depth : Nat) : Except TranslateError PValue :=
  resolveValueAux var_lookup max_depth (max_depth + 1 - depth) val

/-- `resolve_points`. -/
def resolve_points (lk : List (String × PValue)) (md : Nat) (ps : List RawPoint) :
    Except TranslateError (List RawPoint) :=
  ps.mapM (fun p => do
    let t ← resolve_value lk md p.t 0
    let v ← resolve_value lk md p.v 0
    pure { t := t, v := v })

/-- `resolve_exit_triggers`. -/
def resolve_exit_triggers (lk : List (String × PValue)) (md : Nat)
    (ts : List RawTrigger) : Except TranslateError (List RawTrigger) :=
  ts.mapM (fun t => do
    let v ← resolve_value lk md t.value 0
    pure { t with value := v })

/-- `resolve_limits`. -/
def resolve_limits (lk : List (String × PValue)) (md : Nat) (ls : List RawLimit) :
    Except TranslateError (List RawLimit) :=
  ls.mapM (fun l => do
    let v ← resolve_value lk md l.value 0
    pure { l with value := v })

/-- `resolve_stage`. -/
def resolve_stage (lk : List (String × PValue)) (md : Nat) (st : RawStage) :
    Except TranslateError RawStage := do
  let ps ← resolve_points lk md st.dynamics.points
  let ts ← resolve_exit_triggers lk md st.exit_triggers
  let ls ← resolve_limits lk md st.limits
  pure { st with dynamics := { st.dynamics with points := ps },
                 exit_triggers := ts, limits := ls }

/-- The `data["stages"] = [resolve_stage(s) for s in data.get("stages", [])]`
comprehension: the first raised error aborts it, leaving `data` untouched. -/
def resolveStages (doc : RawDoc) (md : Nat) : Except TranslateError (List RawStage) :=
  doc.stages.mapM (resolve_stage (doc.varTable.map (fun v => (v.key, v.value))) md)

/-- `check_for_usage` accumulation for one value. -/
def usageKey (val : PValue) : Option String :=
  match val with
  | .str s => if strStartsWith s "$" then varMatch s else none
  | .num _ => none

/-- `find_unused_variables`: scans the (already reassigned) stages for
`$name` usages and lists the defined keys never used. -/
def find_unused_variables (doc : RawDoc) : List String :=
  if doc.varTable.isEmpty then []
  else
    let used : List String :=
      (doc.stages.map (fun st =>
        (st.dynamics.points.map (fun p => [usageKey p.t, usageKey p.v])).flatten.reduceOption
          ++ (st.exit_triggers.map (fun t => usageKey t.value)).reduceOption
          ++ (st.limits.map (fun l => usageKey l.value)).reduceOption)).flatten
    (doc.varTable.filter (fun v => ¬ used.contains v.key)).map (fun v => v.key)

/-- `resolve_variables`: with a non-empty variable table it reassigns
`data["stages"]` on the caller's document object and returns that same
object; the unused-variable scan then runs on the updated document and its
`warnings.warn` call is reified in the returned warning list. -/
def resolve_variables (doc : RawDoc) (max_depth : Nat) :
    Except TranslateError (RawDoc × List Warning) :=
  if doc.varTable.isEmpty then .ok (doc, [])
  else
    match resolveStages doc max_depth with
    | .error e => .error e
    | .ok ss =>
      let d := { doc with stages := ss }
      let unused := find_unused_variables d
      .ok (d, if unused.isEmpty then [] else [.unused unused])

/-- `resolve_variables` with its default `max_depth=10`, as called by
`translate_profile`. -/
def resolve_variables_default (doc : RawDoc) :
    Except TranslateError (RawDoc × List Warning) :=
  resolve_variables doc RESOLVE_DEFAULT_MAX_DEPTH

/-- `check_value` of `find_unresolved_variables`: a string value starting
with `$` whose whole remainder is not a defined key is reported. -/
def unresolvedAt (var_keys : List String) (val : PValue) (path : String) :
    List (String × String) :=
  match val with
  | .str s =>
    if strStartsWith s "$" ∧ ¬ var_keys.contains (s.drop 1) then [(s, path)] else []
  | .num _ => []

/-- `find_unresolved_variables`: every still-unresolved `$ref` with its
structural location. -/
def find_unresolved_variables (doc : RawDoc) : List (String × String) :=
  let var_keys := doc.varTable.map (fun v => v.key)
  (doc.stages.enum.map (fun si =>
    let i := si.1
    let st := si.2
    (st.dynamics.points.enum.map (fun pj =>
        unresolvedAt var_keys pj.2.t
            ("stages[" ++ toString i ++ "].dynamics.points[" ++ toString pj.1 ++ "][0]")
          ++ unresolvedAt var_keys pj.2.v
            ("stages[" ++ toString i ++ "].dynamics.points[" ++ toString pj.1 ++ "][1]"))).flatten
      ++ (st.exit_triggers.enum.map (fun tk =>
        unresolvedAt var_keys tk.2.value
          ("stages[" ++ toString i ++ "].exit_triggers[" ++ toString tk.1 ++ "].value"))).flatten
      ++ (st.limits.enum.map (fun lk =>
        unresolvedAt var_keys lk.2.value
          ("stages[" ++ toString i ++ "].limits[" ++ toString lk.1 ++ "].value"))).flatten)).flatten

/-! ## translator.py — document-level translation -/

/-- Pydantic coercion of a raw scalar into a numeric model field
(a leftover string fails validation). -/
def parseNum : PValue → Except TranslateError ℚ
  | .num q => .ok q
  | .str _ => .error .validation

/-- Pydantic validation of `Stage.type : Literal["power","flow","pressure"]`. -/
def parseStageType : String → Except TranslateError StageType
  | "power" => .ok .power
  | "flow" => .ok .flow
  | "pressure" => .ok .pressure
  | _ => .error .validation

/-- `MeticulousProfile(**meticulous_data)` validation of one stage. -/
def parseStage (rs : RawStage) : Except TranslateError Stage := do
  let ty ← parseStageType rs.type
  let ps ← rs.dynamics.points.mapM (fun p => do
    let t ← parseNum p.t
    let v ← parseNum p.v
    pure (t, v))
  let ts ← rs.exit_triggers.mapM (fun t => do
    let v ← parseNum t.value
    pure { type := t.type, value := v, relative := t.relative,
           comparison := t.comparison : ExitTrigger })
  pure { name := rs.name, key := rs.key, type := ty,
         dynamics := { points := ps, interpolation := rs.dynamics.interpolation },
         exitTriggers := ts }

/-- `MeticulousProfile(**meticulous_data)`. -/
def parseMeticulous (d : RawDoc) : Except TranslateError MeticulousProfile := do
  let ss ← d.stages.mapM parseStage
  pure { name := d.name, id := d.id, author := d.author, author_id := d.author_id,
         temperature := d.temperature, final_weight := d.final_weight, stages := ss }

/-- What a call to `translate_profile` leaves behind: the returned value or
raised exception, the state of the caller's document object (which
`resolve_variables` mutates in place), and the emitted warnings. -/
structure TranslateOutcome where
  result : Except TranslateError GaggimateProfile
  callerDoc : RawDoc
  warnings : List Warning
deriving Repr

/-- The synthesized description string (TRAN-10 metadata preservation). -/
def descriptionFor (m : MeticulousProfile) : String :=
  "Meticulous ID: " ++ m.id ++ "\nAuthor: " ++ m.author ++ "\nOriginal Name: " ++ m.name

/-- `translate_profile(meticulous_data, transition_mode)`: resolve variables
(mutating the caller's document), abort on unresolved references, validate
into the Meticulous model, translate the stages in order, and assemble the
Gaggimate profile (whose own pydantic temperature bound is checked last). -/
def translate_profile (doc : RawDoc) (transition_mode : String) : TranslateOutcome :=
  match resolve_variables_default doc with
  | .error e => { result := .error e, callerDoc := doc, warnings := [] }
  | .ok (d, ws0) =>
    let unresolved := find_unresolved_variables d
    if unresolved.isEmpty then
      match parseMeticulous d with
      | .error e => { result := .error e, callerDoc := d, warnings := ws0 }
      | .ok m =>
        match m.stages.mapM (translateStage m.temperature transition_mode) with
        | .error e => { result := .error e, callerDoc := d, warnings := ws0 }
        | .ok rs =>
          let phases := (rs.map Prod.fst).flatten
          let ws := (rs.map Prod.snd).flatten
          if 0 ≤ m.temperature ∧ m.temperature ≤ 150 then
            { result := .ok
                { label := m.name, type := "pro", description := descriptionFor m,
                  temperature := m.temperature, utility := false, phases := phases }
              callerDoc := d
              warnings := ws0 ++ ws }
          else
            { result := .error .validation, callerDoc := d, warnings := ws0 ++ ws }
    else
      { result := .error (.undefinedVariable
          (String.intercalate ", " (unresolved.map (fun u => u.1)))
          (String.intercalate "; " (unresolved.map (fun u => u.2))))
        callerDoc := d
        warnings := ws0 }

/-! ## Spec-side vocabulary and warning discriminators -/

/-- The four trigger types the converter supports (the keys of
`TRIGGER_TO_TARGET_TYPE`). -/
def isSupportedType (t : String) : Bool :=
  t = "weight" || t = "time" || t = "pressure" || t = "flow"

/-- Modelled from the spec (§4.3/§8 wording): the predicted emission order —
the first occurrence of each distinct type, in input order, given the set
of already-seen types. -/
def specFirstOccur (seen : List String) : List String → List String
  | [] => []
  | t :: ts =>
    if t ∈ seen then specFirstOccur seen ts
    else t :: specFirstOccur (t :: seen) ts

/-- Modelled from the spec (§4.3: "only the first trigger encountered for
a given type is kept"; §8 scenario: value 36 kept): for each distinct
supported trigger type, in first-occurrence order, the exit target built
from the *first* trigger of that type — its mapped type, its mapped
operator, and its (relative-time-converted) value. -/
def specKeptTargets (pst : ℚ) (seen : List String) : List ExitTrigger → List ExitTarget
  | [] => []
  | t :: ts =>
    if isSupportedType t.type = true ∧ t.type ∉ seen then
      { type := TRIGGER_TO_TARGET_TYPE t.type,
        operator := OPERATOR_MAP t.comparison,
        value := if t.type = "time" ∧ t.relative then pst + t.value else t.value }
        :: specKeptTargets pst (t.type :: seen) ts
    else specKeptTargets pst seen ts

/-- Discriminator for `[Validation]` conflict warnings. -/
def isConflictWarning : Warning → Bool
  | .conflict _ _ _ _ _ => true
  | _ => false

/-- Discriminator for `[Unsupported]` warnings. -/
def isUnsupportedWarning : Warning → Bool
  | .unsupported _ => true
  | _ => false

/-- Discriminator for `[Validation] Duplicate …` warnings. -/
def isDuplicateWarning : Warning → Bool
  | .duplicate _ _ _ _ _ => true
  | _ => false

/-- Discriminator for pressure-range warnings. -/
def isPressureRangeWarning : Warning → Bool
  | .pressureRange _ _ => true
  | _ => false

/-- The document of the source's own cycle-detection test: the table
`{x: "$x"}` and a stage point referencing `$x`. -/
def c8CycleDoc : RawDoc :=
  { name := "Cycle Detection Test", id := "test-7", author := "test",
    author_id := "test", temperature := 93, final_weight := 36,
    varTable := [{ key := "x", value := PValue.str "$x" }],
    stages :=
      [{ name := "Test Stage", key := "test", type := "power",
         dynamics := { points := [{ t := PValue.num 0, v := PValue.str "$x" }],
                       interpolation := "linear" },
         exit_triggers := [], limits := [] }] }

/-! ## Claim C1 -/

/-- C1 counterexample: a flow stage whose key is `"Bloom"` (so,
case-insensitively, exactly "bloom") with segment value 0.05 is claimed to
get the bloom pump override `target = pressure, pressure = max(v, 2.0),
flow = 0`; the code instead maps it as a standard flow stage. -/
theorem c1_counterexample :
    (pumpForStage
        { name := "Bloom", key := "Bloom", type := .flow,
          dynamics := { points := [(0, 1/20)], interpolation := "linear" },
          exitTriggers := [] } (1/20)).1
      ≠ { target := "pressure", pressure := pyMax (1/20) 2, flow := 0 } := by
  decide

/-- C1 (amended): the bloom override fires only inside the flow-type
branch, only when the stage key starts with `"blooming"` (case-sensitive)
and the segment value is ≤ 0.1; it then forces pump target `pressure`,
`pressure = MIN_BLOOM_PRESSURE = 2.0` (a constant, not `max(v, 2.0)`),
`flow = 0`, with no diagnostic. -/
theorem c1_bloom_override (st : Stage) (v : ℚ)
    (hty : st.type = .flow)
    (hkey : strStartsWith st.key "blooming" = true)
    (hv : v ≤ 1/10) :
    pumpForStage st v =
      ({ target := "pressure", pressure := MIN_BLOOM_PRESSURE, flow := 0 }, []) := by
  simp [pumpForStage, hty, hkey]
  linarith

/-- C1 witness: the amended theorem applied to the spec's own bloom
scenario (flow stage keyed `"blooming"`, value 0.05). -/
theorem c1_witness :
    pumpForStage
        { name := "Bloom", key := "blooming", type := .flow,
          dynamics := { points := [(0, 1/20)], interpolation := "linear" },
          exitTriggers := [] } (1/20)
      = ({ target := "pressure", pressure := MIN_BLOOM_PRESSURE, flow := 0 }, []) :=
  c1_bloom_override _ _ rfl (by decide) (by norm_num)

/-! ## Claim C3 -/

/-- Every phase built from a stage carries the transition type selected by
`transitionTypeFor` (both the single-point and the split branch use it). -/
theorem transitionType_of_buildStagePhases (temp : ℚ) (mode : String) (st : Stage) :
    ∀ ph ∈ (buildStagePhases temp mode st).1,
      ph.transition.type = transitionTypeFor mode st := by
  intro ph hph
  unfold buildStagePhases at hph
  by_cases hn : st.dynamics.points.length ≤ 1
  · simp only [hn, if_pos] at hph
    simp only [List.mem_singleton] at hph
    subst hph
    simp [singlePhase]
  · simp only [hn, if_neg, not_false_iff] at hph
    simp only [List.map_map, List.mem_map, List.mem_range] at hph
    obtain ⟨j, _, rfl⟩ := hph
    simp [splitPhase]

/-- C3 counterexample: in `linear` transition mode a flow-type stage's
emitted phase has transition type `"linear"`, not `"instant"`. -/
theorem c3_counterexample :
    (((buildStagePhases 93 TRANSITION_MODE_LINEAR
        { name := "Fast Flow", key := "Extraction", type := .flow,
          dynamics := { points := [(0, 5)], interpolation := "linear" },
          exitTriggers := [] }).1.getD 0 default).transition.type = "linear") ∧
    ("linear" : String) ≠ "instant" := by
  constructor
  · rfl
  · decide

/-- C3 (amended): phases emitted from a flow-type stage always get an
`instant` transition in the `smart`, `preserve` and `instant` transition
modes, for every declared interpolation; in `linear` mode they get
`linear` like every other stage. -/
theorem c3_flow_instant (st : Stage) (temp : ℚ) (mode : String)
    (hty : st.type = .flow)
    (hm : mode = TRANSITION_MODE_SMART ∨ mode = TRANSITION_MODE_PRESERVE ∨
          mode = TRANSITION_MODE_INSTANT) :
    ∀ ph ∈ (buildStagePhases temp mode st).1, ph.transition.type = "instant" := by
  intro ph hph
  rw [transitionType_of_buildStagePhases temp mode st ph hph]
  rcases hm with rfl | rfl | rfl
  · simp [transitionTypeFor, hty]
  · simp [transitionTypeFor, TRANSITION_MODE_SMART, TRANSITION_MODE_PRESERVE, hty]
  · simp [transitionTypeFor, TRANSITION_MODE_SMART, TRANSITION_MODE_PRESERVE,
      TRANSITION_MODE_LINEAR, TRANSITION_MODE_INSTANT]

/-- C3 witness: a flow stage in `smart` mode, `bezier` interpolation,
emits an `instant` transition. -/
theorem c3_witness :
    (((buildStagePhases 93 TRANSITION_MODE_SMART
        { name := "Fast Flow", key := "Extraction", type := .flow,
          dynamics := { points := [(0, 5)], interpolation := "bezier" },
          exitTriggers := [] }).1.getD 0 default).transition.type = "instant") := by
  have h := c3_flow_instant
    { name := "Fast Flow", key := "Extraction", type := .flow,
      dynamics := { points := [(0, 5)], interpolation := "bezier" },
      exitTriggers := [] } 93 TRANSITION_MODE_SMART rfl (Or.inl rfl)
  exact h _ (by decide)

/-! ## Claim C7 -/

/-- C7: for a pair of same-type triggers `(>= X, <= Y)` (in either list
order), conflict detection yields exactly one conflict warning when
`X > Y` and none when `X ≤ Y`. -/
theorem c7_conflict_pair (ttype : String) (X Y : ℚ) (ra rb : Bool) :
    (X > Y →
      (detect_conflicting_triggers
        [⟨ttype, X, ra, ">="⟩, ⟨ttype, Y, rb, "<="⟩]).length = 1 ∧
      (detect_conflicting_triggers
        [⟨ttype, Y, rb, "<="⟩, ⟨ttype, X, ra, ">="⟩]).length = 1) ∧
    (X ≤ Y →
      detect_conflicting_triggers [⟨ttype, X, ra, ">="⟩, ⟨ttype, Y, rb, "<="⟩] = [] ∧
      detect_conflicting_triggers [⟨ttype, Y, rb, "<="⟩, ⟨ttype, X, ra, ">="⟩] = []) := by
  constructor
  · intro hXY
    constructor
    · simp [detect_conflicting_triggers, groupByType, addToGroups, pairConflicts,
        checkTriggerPairConflict, hXY]
    · simp [detect_conflicting_triggers, groupByType, addToGroups, pairConflicts,
        checkTriggerPairConflict, hXY]
  · intro hXY
    have h1 : ¬ X > Y := not_lt.mpr hXY
    constructor
    · simp [detect_conflicting_triggers, groupByType, addToGroups, pairConflicts,
        checkTriggerPairConflict, h1]
    · simp [detect_conflicting_triggers, groupByType, addToGroups, pairConflicts,
        checkTriggerPairConflict, h1]

/-- C7 witness: `(pressure >= 4, pressure <= 2)` yields one conflict
warning; `(pressure >= 2, pressure <= 4)` yields none. -/
theorem c7_witness :
    (detect_conflicting_triggers
      [⟨"pressure", 4, false, ">="⟩, ⟨"pressure", 2, false, "<="⟩]).length = 1 ∧
    detect_conflicting_triggers
      [⟨"pressure", 2, false, ">="⟩, ⟨"pressure", 4, false, "<="⟩] = [] := by
  constructor
  · exact ((c7_conflict_pair "pressure" 4 2 false false).1 (by norm_num)).1
  · exact ((c7_conflict_pair "pressure" 2 4 false false).2 (by norm_num)).1

/-! ## Claim C8 -/

/-- Chasing the self-referencing binding `x ↦ "$x"` consumes the whole
depth budget and ends in the ceiling error, whatever the budget. -/
theorem resolveValueAux_cycle (md : Nat) :
    ∀ fuel, resolveValueAux [("x", PValue.str "$x")] md fuel (PValue.str "$x")
      = .error (.maxDepth md) := by
  intro fuel
  induction fuel with
  | zero => rfl
  | succ n ih =>
    rw [resolveValueAux]
    have h1 : strStartsWith "$x" "$" = true := by decide
    have h2 : varMatch "$x" = some "x" := by decide
    have h3 : dictLookup [("x", PValue.str "$x")] "x" = some (PValue.str "$x") := by decide
    simp only [h1, if_pos, h2, h3]
    exact ih

/-- C8: variable resolution fails with the error naming the depth ceiling
whenever a value's resolution chain exceeds it: the cyclic table
`{x: "$x"}` errors for every ceiling; on the document of the source's own
cycle test (a stage point referencing `$x`) it errors with ceiling 2 when
`max_depth = 2`, and with ceiling 10 under the default. -/
theorem c8_cycle_depth :
    (∀ md : Nat,
      resolve_value [("x", PValue.str "$x")] md (PValue.str "$x") 0
        = .error (.maxDepth md)) ∧
    resolve_variables c8CycleDoc 2 = .error (.maxDepth 2) ∧
    resolve_variables_default c8CycleDoc = .error (.maxDepth 10) := by
  refine ⟨fun md => ?_, ?_, ?_⟩
  · unfold resolve_value
    exact resolveValueAux_cycle md _
  · rfl
  · rfl

/-! ## Shape of the converter's warnings -/

/-- A hit of the pair-conflict check is always a conflict warning. -/
theorem checkTriggerPairConflict_isConflict (a b : ExitTrigger) (w : Warning)
    (h : checkTriggerPairConflict a b = some w) : isConflictWarning w = true := by
  unfold checkTriggerPairConflict at h
  iterate 8 (all_goals try split at h)
  all_goals try (injection h with h2; subst h2; rfl)
  all_goals exact Option.noConfusion h

/-- Every warning of the pairwise scan is a conflict warning. -/
theorem pairConflicts_isConflict (l : List ExitTrigger) :
    ∀ w ∈ pairConflicts l, isConflictWarning w = true := by
  induction l with
  | nil => intro w hw; simp [pairConflicts] at hw
  | cons a rest ih =>
    intro w hw
    simp only [pairConflicts, List.mem_append, List.mem_filterMap] at hw
    rcases hw with ⟨b, _, hb⟩ | hw
    · exact checkTriggerPairConflict_isConflict a b w hb
    · exact ih w hw

/-- Every warning of `detect_conflicting_triggers` is a conflict warning. -/
theorem detect_isConflict (trs : List ExitTrigger) :
    ∀ w ∈ detect_conflicting_triggers trs, isConflictWarning w = true := by
  intro w hw
  simp only [detect_conflicting_triggers, List.mem_flatten, List.mem_map] at hw
  obtain ⟨_, ⟨g, _, rfl⟩, hwg⟩ := hw
  exact pairConflicts_isConflict g.2 w hwg

/-- The loop's first warning list holds only `[Unsupported]` warnings, its
second only duplicate warnings. -/
theorem convertLoop_warning_classes (pst : ℚ) :
    ∀ (trs : List ExitTrigger) (seen : List (String × String × ℚ)),
      (∀ w ∈ (convertLoop pst seen trs).2.1, isUnsupportedWarning w = true) ∧
      (∀ w ∈ (convertLoop pst seen trs).2.2, isDuplicateWarning w = true) := by
  intro trs
  induction trs with
  | nil => intro seen; simp [convertLoop]
  | cons t ts ih =>
    intro seen
    constructor
    · intro w hw
      unfold convertLoop at hw
      split at hw
      · simp only [List.mem_cons] at hw
        rcases hw with rfl | hw
        · rfl
        · exact (ih seen).1 w hw
      · split at hw
        · exact (ih seen).1 w hw
        · exact (ih _).1 w hw
    · intro w hw
      unfold convertLoop at hw
      split at hw
      · exact (ih seen).2 w hw
      · split at hw
        · simp only [List.mem_cons] at hw
          rcases hw with rfl | hw
          · rfl
          · exact (ih seen).2 w hw
        · exact (ih _).2 w hw

/-- Every warning of `convert_exit_triggers` is a conflict, unsupported or
duplicate warning — never a pressure-range warning. -/
theorem convert_warning_classes (trs : List ExitTrigger) (pst : ℚ) :
    ∀ w ∈ (convert_exit_triggers trs pst).2,
      isConflictWarning w = true ∨ isUnsupportedWarning w = true ∨
      isDuplicateWarning w = true := by
  intro w hw
  simp only [convert_exit_triggers, List.mem_append] at hw
  rcases hw with (hw | hw) | hw
  · exact Or.inl (detect_isConflict trs w hw)
  · exact Or.inr (Or.inl ((convertLoop_warning_classes pst trs []).1 w hw))
  · exact Or.inr (Or.inr ((convertLoop_warning_classes pst trs []).2 w hw))

/-! ## Claim C9 -/

/-- The single-point phase's transition carries the phase duration. -/
theorem singlePhase_transition_duration (temp : ℚ) (mode : String) (st : Stage) :
    (singlePhase temp mode st).1.transition.duration =
      (singlePhase temp mode st).1.duration := rfl

/-- The single-point phase's duration is positive (trigger values are
floored at 0.1, heuristic values at 1.0). -/
theorem singlePhase_duration_pos (temp : ℚ) (mode : String) (st : Stage) :
    0 < (singlePhase temp mode st).1.duration := by
  simp only [singlePhase, pyMax]
  repeat' split
  all_goals first
    | (rename_i h; exact lt_of_not_le h)
    | (rename_i h; have := le_of_not_lt h; linarith)
    | (rename_i hne x v heq; rw [heq] at hne; push_neg at hne; linarith)
    | norm_num

/-- `translateStage` succeeds exactly when every built phase passes the
pydantic field bounds, and then returns the built phases and warnings. -/
theorem translateStage_ok_iff (temp : ℚ) (mode : String) (st : Stage)
    (phs : List GaggimatePhase) (ws : List Warning) :
    translateStage temp mode st = .ok (phs, ws) ↔
      ((buildStagePhases temp mode st).1.all phaseOk = true ∧
        phs = (buildStagePhases temp mode st).1 ∧
        ws = (buildStagePhases temp mode st).2) := by
  unfold translateStage
  by_cases h : (buildStagePhases temp mode st).1.all phaseOk
  · simp [h, Prod.ext_iff, eq_comm]
  · simp [h]

/-- C9 counterexample: a pressure stage with point value 20 bar aborts
translation with a pydantic validation error (`PumpSettings.pressure` is
bounded by 15), instead of succeeding with only a range warning. -/
theorem c9_counterexample :
    translateStage 93 TRANSITION_MODE_SMART
        { name := "P20", key := "over", type := .pressure,
          dynamics := { points := [(0, 20)], interpolation := "linear" },
          exitTriggers := [] }
      = .error .validation := rfl

/-- C9 (amended): for a single-point pressure stage whose value `v` lies
inside the pump model's bounds `0 ≤ v ≤ 15` (and a temperature inside its
own bounds), translation succeeds with pump `target = pressure,
pressure = v, flow = 10`; a `v` outside 1.0–10.0 bar adds exactly the
pressure-range diagnostic, which is returned alongside the phases and
never aborts; outside `[0, 15]` the pump model's own validation rejects
the phase. -/
theorem c9_pressure_stage (st : Stage) (temp : ℚ) (mode : String) (t0 v : ℚ)
    (hty : st.type = .pressure)
    (hpts : st.dynamics.points = [(t0, v)])
    (htl : 0 ≤ temp) (hth : temp ≤ 150)
    (hvl : 0 ≤ v) (hvh : v ≤ 15) :
    (translateStage temp mode st).isOk = true ∧
    ∀ phs ws, translateStage temp mode st = .ok (phs, ws) →
      phs.map (fun p => p.pump) =
        [{ target := "pressure", pressure := v, flow := 10 }] ∧
      (Warning.pressureRange st.name v ∈ ws ↔ (v < MIN_PRESSURE ∨ v > MAX_PRESSURE)) := by
  have hlen : st.dynamics.points.length = 1 := by rw [hpts]; rfl
  have hbuild : buildStagePhases temp mode st =
      ([(singlePhase temp mode st).1], (singlePhase temp mode st).2) := by
    unfold buildStagePhases
    rw [hlen]
    simp
  have htv : (if st.dynamics.points.length = 1 then (pointAt st.dynamics.points 0).2 else 0) = v := by
    rw [hlen, hpts]
    rfl
  have hpump : (singlePhase temp mode st).1.pump =
      { target := "pressure", pressure := v, flow := 10 } := by
    show (pumpForStage st
      (if st.dynamics.points.length = 1 then (pointAt st.dynamics.points 0).2 else 0)).1 =
      { target := "pressure", pressure := v, flow := 10 }
    rw [htv]
    simp [pumpForStage, hty]
  have hws : (singlePhase temp mode st).2 =
      validate_pressure_range v st.name ++ (convert_exit_triggers st.exitTriggers 0).2 := by
    show (pumpForStage st
        (if st.dynamics.points.length = 1 then (pointAt st.dynamics.points 0).2 else 0)).2
        ++ (convert_exit_triggers st.exitTriggers 0).2
      = validate_pressure_range v st.name ++ (convert_exit_triggers st.exitTriggers 0).2
    rw [htv]
    simp [pumpForStage, hty]
  have hok : phaseOk (singlePhase temp mode st).1 = true := by
    have hd := singlePhase_duration_pos temp mode st
    have htd := singlePhase_transition_duration temp mode st
    have htt : (singlePhase temp mode st).1.temperature = temp := rfl
    simp only [phaseOk, Bool.and_eq_true, decide_eq_true_eq, htt, htd, hpump]
    refine ⟨⟨⟨⟨⟨⟨hd, htl⟩, hth⟩, le_of_lt hd⟩, hvl⟩, hvh⟩, by norm_num⟩
  have hall : (buildStagePhases temp mode st).1.all phaseOk = true := by
    rw [hbuild]
    simp [hok]
  have hstage : translateStage temp mode st =
      .ok ([(singlePhase temp mode st).1], (singlePhase temp mode st).2) := by
    rw [(translateStage_ok_iff temp mode st _ _)]
    rw [hbuild] at hall ⊢
    exact ⟨hall, rfl, rfl⟩
  constructor
  · rw [hstage]; rfl
  · intro phs ws h
    rw [hstage] at h
    injection h with h
    injection h with h1 h2
    subst h1
    subst h2
    constructor
    · simp [hpump]
    · rw [hws]
      constructor
      · intro hmem
        rcases List.mem_append.mp hmem with hmem | hmem
        · unfold validate_pressure_range at hmem
          split at hmem
          · rename_i hcond
            exact hcond
          · simp at hmem
        · rcases convert_warning_classes st.exitTriggers 0 _ hmem with hc | hc | hc <;>
            simp [isConflictWarning, isUnsupportedWarning, isDuplicateWarning] at hc
      · intro hcond
        apply List.mem_append.mpr
        left
        unfold validate_pressure_range
        rw [if_pos hcond]
        exact List.mem_singleton.mpr rfl

/-- C9 witness: a single-point pressure stage at 12 bar (inside the pump
bound, outside the 1-10 typical range) succeeds with pump
`(pressure, 12, 10)` and carries the range diagnostic. -/
theorem c9_witness :
    (translateStage 93 TRANSITION_MODE_SMART
      { name := "P12", key := "hot", type := .pressure,
        dynamics := { points := [(0, 12)], interpolation := "linear" },
        exitTriggers := [] }).isOk = true ∧
    (buildStagePhases 93 TRANSITION_MODE_SMART
      { name := "P12", key := "hot", type := .pressure,
        dynamics := { points := [(0, 12)], interpolation := "linear" },
        exitTriggers := [] }).1.map (fun p => p.pump) =
      [{ target := "pressure", pressure := 12, flow := 10 }] ∧
    Warning.pressureRange "P12" 12 ∈
      (buildStagePhases 93 TRANSITION_MODE_SMART
        { name := "P12", key := "hot", type := .pressure,
          dynamics := { points := [(0, 12)], interpolation := "linear" },
          exitTriggers := [] }).2 := by
  have h := c9_pressure_stage
    { name := "P12", key := "hot", type := .pressure,
      dynamics := { points := [(0, 12)], interpolation := "linear" },
      exitTriggers := [] } 93 TRANSITION_MODE_SMART 0 12 rfl rfl
    (by norm_num) (by norm_num) (by norm_num) (by norm_num)
  have hok : translateStage 93 TRANSITION_MODE_SMART
      { name := "P12", key := "hot", type := .pressure,
        dynamics := { points := [(0, 12)], interpolation := "linear" },
        exitTriggers := [] }
      = .ok (buildStagePhases 93 TRANSITION_MODE_SMART
      { name := "P12", key := "hot", type := .pressure,
        dynamics := { points := [(0, 12)], interpolation := "linear" },
        exitTriggers := [] }) := by rfl
  refine ⟨h.1, (h.2 _ _ hok).1, ?_⟩
  refine ((h.2 _ _ hok).2).mpr (Or.inr ?_)
  norm_num [MAX_PRESSURE]

/-! ## Claim C4 -/

/-- A found first time trigger means the `time`-trigger scan succeeds. -/
theorem any_time_of_firstTimeTriggerValue (ts : List ExitTrigger) (u : ℚ)
    (h : firstTimeTriggerValue ts = some u) :
    ts.any (fun t => t.type = "time") = true := by
  induction ts with
  | nil => simp [firstTimeTriggerValue] at h
  | cons t rest ih =>
    unfold firstTimeTriggerValue at h
    by_cases ht : t.type = "time"
    · simp [List.any_cons, ht]
    · rw [if_neg ht] at h
      simp [List.any_cons, ih h]

/-- C4 counterexample: in `preserve` mode a non-instant transition over a
3.0+ bar pressure jump gets duration 5.0, not the claimed 1.5. -/
theorem c4_counterexample :
    (((buildStagePhases 93 TRANSITION_MODE_PRESERVE
        { name := "Ramp", key := "Extraction", type := .pressure,
          dynamics := { points := [(0, 0), (5, 5)], interpolation := "linear" },
          exitTriggers := [] }).1.getD 0 default).transition.type ≠ "instant") ∧
    (((buildStagePhases 93 TRANSITION_MODE_PRESERVE
        { name := "Ramp", key := "Extraction", type := .pressure,
          dynamics := { points := [(0, 0), (5, 5)], interpolation := "linear" },
          exitTriggers := [] }).1.getD 0 default).transition.duration = 5) ∧
    (5 : ℚ) ≠ 3/2 := by
  refine ⟨by decide, by decide, by norm_num⟩

/-- C4 (amended): outside `preserve` mode, a split segment's transition
duration is 0 for instant transitions and otherwise follows the
pressure-delta table (1.5 above 3.0 bar, 7.0 below 1.0 bar, else 4.0,
with delta = |p[i][1] − p[i-1][1]| for pressure stages and 0 otherwise);
a single-point stage without a time exit trigger takes the same table
value on delta = |v − 0| floored below by 1.0 (so its instant transitions
get 1.0, not 0); a single-point stage with a time exit trigger takes that
trigger's value (floored to 0.1 if non-positive) as transition duration. -/
theorem c4_transition_duration (st : Stage) (temp : ℚ) (mode : String) (i : Nat)
    (hm : mode ≠ TRANSITION_MODE_PRESERVE) :
    ((splitPhase temp mode st i).1.transition.duration =
      (if transitionTypeFor mode st = "instant" then 0
       else if (if st.type = .pressure
                then pyAbs ((pointAt st.dynamics.points i).2
                  - (pointAt st.dynamics.points (i - 1)).2)
                else 0) > 3 then 3/2
       else if (if st.type = .pressure
                then pyAbs ((pointAt st.dynamics.points i).2
                  - (pointAt st.dynamics.points (i - 1)).2)
                else 0) < 1 then 7
       else 4)) ∧
    ((st.exitTriggers.any (fun t => t.type = "time")) = false →
      (singlePhase temp mode st).1.transition.duration =
        pyMax
          (if transitionTypeFor mode st = "instant" then 0
           else if (if st.type = .pressure
                    then pyAbs ((if 0 < st.dynamics.points.length
                                 then (pointAt st.dynamics.points 0).2 else 0) - 0)
                    else 0) > 3 then 3/2
           else if (if st.type = .pressure
                    then pyAbs ((if 0 < st.dynamics.points.length
                                 then (pointAt st.dynamics.points 0).2 else 0) - 0)
                    else 0) < 1 then 7
           else 4) 1) ∧
    (∀ u, firstTimeTriggerValue st.exitTriggers = some u →
      (singlePhase temp mode st).1.transition.duration = (if u ≤ 0 then 1/10 else u)) := by
  have htable : ∀ d : ℚ, calculate_transition_duration d (transitionTypeFor mode st) mode =
      (if transitionTypeFor mode st = "instant" then 0
       else if d > 3 then 3/2 else if d < 1 then 7 else 4) := by
    intro d
    unfold calculate_transition_duration
    simp [hm]
  refine ⟨?_, ?_, ?_⟩
  · simp only [splitPhase]
    exact htable _
  · intro h
    simp only [singlePhase, h, Bool.false_eq_true, if_false]
    rw [htable]
  · intro u hu
    have hfound := any_time_of_firstTimeTriggerValue st.exitTriggers u hu
    simp only [singlePhase, hfound, if_true, hu]

/-- C4 witness: in `smart` mode a 5-bar pressure jump between consecutive
points gives a 1.5s transition, and a single-point stage with a 20s time
trigger gets transition duration 20. -/
theorem c4_witness :
    (splitPhase 93 TRANSITION_MODE_SMART
      { name := "Ramp", key := "Extraction", type := .pressure,
        dynamics := { points := [(0, 0), (5, 5)], interpolation := "linear" },
        exitTriggers := [] } 1).1.transition.duration = 3/2 ∧
    (singlePhase 93 TRANSITION_MODE_SMART
      { name := "Hold", key := "Extraction", type := .pressure,
        dynamics := { points := [(0, 9)], interpolation := "linear" },
        exitTriggers := [{ type := "time", value := 20, relative := false,
                           comparison := ">=" }] }).1.transition.duration = 20 := by
  constructor
  · rw [(c4_transition_duration
      { name := "Ramp", key := "Extraction", type := .pressure,
        dynamics := { points := [(0, 0), (5, 5)], interpolation := "linear" },
        exitTriggers := [] } 93 TRANSITION_MODE_SMART 1 (by decide)).1]
    decide
  · rw [(c4_transition_duration
      { name := "Hold", key := "Extraction", type := .pressure,
        dynamics := { points := [(0, 9)], interpolation := "linear" },
        exitTriggers := [{ type := "time", value := 20, relative := false,
                           comparison := ">=" }] } 93 TRANSITION_MODE_SMART 0
      (by decide)).2.2 20 (by decide)]
    decide

/-! ## Claim C5 -/

/-- Indexing a mapped range. -/
theorem getD_map_range {α : Type} (f : Nat → α) (n k : Nat) (d : α) (hk : k < n) :
    ((List.range n).map f).getD k d = f k := by
  rw [List.getD_eq_getElem?_getD, List.getElem?_map, List.getElem?_range hk]
  rfl

/-- The split branch of `buildStagePhases` is a map over segment indices. -/
theorem buildStagePhases_split (temp : ℚ) (mode : String) (st : Stage)
    (hn : ¬ st.dynamics.points.length ≤ 1) :
    (buildStagePhases temp mode st).1 =
      (List.range (st.dynamics.points.length - 1)).map
        (fun j => (splitPhase temp mode st (j + 1)).1) := by
  unfold buildStagePhases
  rw [if_neg hn]
  simp only [List.map_map]
  rfl

/-- C5: a stage with N ≥ 2 curve points yields exactly N−1 phases; phase
`i` (1-based) has duration `time(p[i]) − time(p[i-1])` floored to 0.1 when
non-positive and the name suffix `" (i/(N-1))"`; a stage with N ≤ 1 points
yields exactly one phase. -/
theorem c5_segmentation (st : Stage) (temp : ℚ) (mode : String)
    (phs : List GaggimatePhase) (ws : List Warning)
    (h : translateStage temp mode st = .ok (phs, ws)) :
    (st.dynamics.points.length ≤ 1 → phs.length = 1) ∧
    (2 ≤ st.dynamics.points.length →
      phs.length = st.dynamics.points.length - 1 ∧
      ∀ i, 1 ≤ i → i < st.dynamics.points.length →
        ((phs.getD (i - 1) default).duration =
          (if (pointAt st.dynamics.points i).1 - (pointAt st.dynamics.points (i - 1)).1 ≤ 0
           then 1/10
           else (pointAt st.dynamics.points i).1 - (pointAt st.dynamics.points (i - 1)).1) ∧
         (phs.getD (i - 1) default).name =
           st.name ++ " (" ++ toString i ++ "/"
             ++ toString (st.dynamics.points.length - 1) ++ ")")) := by
  have hphs : phs = (buildStagePhases temp mode st).1 :=
    ((translateStage_ok_iff temp mode st phs ws).mp h).2.1
  subst hphs
  constructor
  · intro hn
    simp [buildStagePhases, hn]
  · intro hn
    have hn' : ¬ st.dynamics.points.length ≤ 1 := by omega
    constructor
    · rw [buildStagePhases_split temp mode st hn']
      simp
    · intro i h1 hi
      rw [buildStagePhases_split temp mode st hn',
        getD_map_range _ _ _ _ (by omega)]
      have hplus : i - 1 + 1 = i := by omega
      rw [hplus]
      exact ⟨rfl, rfl⟩

/-- C5 witness: a 3-point stage yields two phases with the expected
duration and `" (i/2)"` name suffix. -/
theorem c5_witness :
    (buildStagePhases 93 TRANSITION_MODE_SMART
      { name := "Curve", key := "Extraction", type := .pressure,
        dynamics := { points := [(0, 2), (5, 6), (10, 9)], interpolation := "bezier" },
        exitTriggers := [] }).1.length = 2 ∧
    ((buildStagePhases 93 TRANSITION_MODE_SMART
      { name := "Curve", key := "Extraction", type := .pressure,
        dynamics := { points := [(0, 2), (5, 6), (10, 9)], interpolation := "bezier" },
        exitTriggers := [] }).1.getD 0 default).duration = 5 ∧
    ((buildStagePhases 93 TRANSITION_MODE_SMART
      { name := "Curve", key := "Extraction", type := .pressure,
        dynamics := { points := [(0, 2), (5, 6), (10, 9)], interpolation := "bezier" },
        exitTriggers := [] }).1.getD 1 default).name = "Curve (2/2)" := by
  have hok : translateStage 93 TRANSITION_MODE_SMART
      { name := "Curve", key := "Extraction", type := .pressure,
        dynamics := { points := [(0, 2), (5, 6), (10, 9)], interpolation := "bezier" },
        exitTriggers := [] }
      = .ok ((buildStagePhases 93 TRANSITION_MODE_SMART
      { name := "Curve", key := "Extraction", type := .pressure,
        dynamics := { points := [(0, 2), (5, 6), (10, 9)], interpolation := "bezier" },
        exitTriggers := [] }).1,
      (buildStagePhases 93 TRANSITION_MODE_SMART
      { name := "Curve", key := "Extraction", type := .pressure,
        dynamics := { points := [(0, 2), (5, 6), (10, 9)], interpolation := "bezier" },
        exitTriggers := [] }).2) := by rfl
  have hc := c5_segmentation _ 93 TRANSITION_MODE_SMART _ _ hok
  refine ⟨(hc.2 (by decide)).1, ?_, ?_⟩
  · rw [((hc.2 (by decide)).2 1 (by decide) (by decide)).1]
    norm_num [pointAt]
  · rw [((hc.2 (by decide)).2 2 (by decide) (by decide)).2]
    rfl

/-! ## Claim C2 -/

/-- Converting a lone relative `time >= v` trigger yields one `time gte`
target at `phase_start_time + v` and no warnings. -/
theorem convert_single_relative_time (v pst : ℚ) :
    convert_exit_triggers
        [{ type := "time", value := v, relative := true, comparison := ">=" }] pst
      = ([{ type := "time", operator := "gte", value := pst + v }], []) := by
  unfold convert_exit_triggers detect_conflicting_triggers groupByType convertLoop
  simp [addToGroups, pairConflicts, checkTriggerPairConflict, isUnsupportedType,
    lookupSeen, TRIGGER_TO_TARGET_TYPE, OPERATOR_MAP, convertLoop]

/-- C2 counterexample: the stage `points [[0,9],[10,9]]` with the relative
trigger `time >= 5` and no preceding stages exports target value 15
(= time of the stage's last point + 5), not the claimed 0 + 5 = 5
(accumulated elapsed time before the stage is 0 here). -/
theorem c2_counterexample :
    (((buildStagePhases 93 TRANSITION_MODE_SMART
        { name := "Test Phase", key := "Extraction", type := .pressure,
          dynamics := { points := [(0, 9), (10, 9)], interpolation := "linear" },
          exitTriggers := [{ type := "time", value := 5, relative := true,
                             comparison := ">=" }] }).1.getD 0 default).targets =
      [{ type := "time", operator := "gte", value := 15 }]) ∧
    (15 : ℚ) ≠ 0 + 5 := by
  constructor
  · decide
  · norm_num

/-- C2 (amended): a relative `time` trigger's exported value is
`phase_start_time + value` where `phase_start_time` is 0.0 for
single-point stages and, for multi-point stages, the time coordinate of
the stage's final curve point — a stage-local offset; no document-level
time is accumulated across stages. -/
theorem c2_relative_time (st : Stage) (temp : ℚ) (mode : String) (v : ℚ)
    (htr : st.exitTriggers =
      [{ type := "time", value := v, relative := true, comparison := ">=" }]) :
    (2 ≤ st.dynamics.points.length →
      ∀ phs ws, translateStage temp mode st = .ok (phs, ws) →
        (phs.getD (st.dynamics.points.length - 2) default).targets =
          [{ type := "time", operator := "gte",
             value := (pointAt st.dynamics.points (st.dynamics.points.length - 1)).1 + v }]) ∧
    (st.dynamics.points.length ≤ 1 →
      ∀ phs ws, translateStage temp mode st = .ok (phs, ws) →
        (phs.getD 0 default).targets =
          [{ type := "time", operator := "gte", value := 0 + v }]) := by
  constructor
  · intro hn phs ws h
    have hphs : phs = (buildStagePhases temp mode st).1 :=
      ((translateStage_ok_iff temp mode st phs ws).mp h).2.1
    subst hphs
    rw [buildStagePhases_split temp mode st (by omega),
      getD_map_range _ _ _ _ (by omega)]
    have hplus : st.dynamics.points.length - 2 + 1 = st.dynamics.points.length - 1 := by
      omega
    rw [hplus]
    have htgt : (splitPhase temp mode st (st.dynamics.points.length - 1)).1.targets =
        (convert_exit_triggers st.exitTriggers
          (pointAt st.dynamics.points (st.dynamics.points.length - 1)).1).1 := by
      simp [splitPhase]
    rw [htgt, htr, convert_single_relative_time]
  · intro hn phs ws h
    have hphs : phs = (buildStagePhases temp mode st).1 :=
      ((translateStage_ok_iff temp mode st phs ws).mp h).2.1
    subst hphs
    have hbuild : (buildStagePhases temp mode st).1 = [(singlePhase temp mode st).1] := by
      unfold buildStagePhases
      rw [if_pos hn]
    rw [hbuild]
    have htgt : (singlePhase temp mode st).1.targets =
        (convert_exit_triggers st.exitTriggers 0).1 := rfl
    show (singlePhase temp mode st).1.targets = _
    rw [htgt, htr, convert_single_relative_time]

/-- C2 witness: the amended rule on the two-point stage of the source's
relative-time test — the exported value is 10 + 5. -/
theorem c2_witness :
    ((buildStagePhases 93 TRANSITION_MODE_SMART
        { name := "Test Phase", key := "Extraction", type := .pressure,
          dynamics := { points := [(0, 9), (10, 9)], interpolation := "linear" },
          exitTriggers := [{ type := "time", value := 5, relative := true,
                             comparison := ">=" }] }).1.getD 0 default).targets =
      [{ type := "time", operator := "gte", value := (10 : ℚ) + 5 }] := by
  have hok : translateStage 93 TRANSITION_MODE_SMART
      { name := "Test Phase", key := "Extraction", type := .pressure,
        dynamics := { points := [(0, 9), (10, 9)], interpolation := "linear" },
        exitTriggers := [{ type := "time", value := 5, relative := true,
                           comparison := ">=" }] }
      = .ok (buildStagePhases 93 TRANSITION_MODE_SMART
        { name := "Test Phase", key := "Extraction", type := .pressure,
          dynamics := { points := [(0, 9), (10, 9)], interpolation := "linear" },
          exitTriggers := [{ type := "time", value := 5, relative := true,
                             comparison := ">=" }] }) := by rfl
  exact (c2_relative_time _ 93 TRANSITION_MODE_SMART 5 rfl).1 (by decide) _ _ hok


/-! ## Claim C6 -/

/-- Unfolding `specFirstOccur` on a cons. -/
theorem specFirstOccur_cons (seen : List String) (t : String) (ts : List String) :
    specFirstOccur seen (t :: ts) =
      if t ∈ seen then specFirstOccur seen ts
      else t :: specFirstOccur (t :: seen) ts := rfl

/-- `seen_types` lookup fails exactly for unseen keys. -/
theorem lookupSeen_eq_none_iff (seen : List (String × String × ℚ)) (k : String) :
    lookupSeen seen k = none ↔ k ∉ seen.map (fun p => p.1) := by
  induction seen with
  | nil => simp [lookupSeen]
  | cons p rest ih =>
    by_cases hp : p.1 = k
    · simp [lookupSeen, List.find?_cons_of_pos, hp]
    · have hstep : lookupSeen (p :: rest) k = lookupSeen rest k := by
        unfold lookupSeen
        rw [List.find?_cons_of_neg _ (by simpa using hp)]
      rw [hstep, ih]
      simp only [List.map_cons, List.mem_cons]
      constructor
      · intro h hc
        rcases hc with hc | hc
        · exact hp hc.symm
        · exact h hc
      · intro h hc
        exact h (Or.inr hc)

/-- The three unsupported types are not among the four supported ones. -/
theorem not_supported_of_unsupported (t : String) (h : isUnsupportedType t = true) :
    isSupportedType t = false := by
  simp only [isUnsupportedType, Bool.or_eq_true, decide_eq_true_eq] at h
  rcases h with (h | h) | h <;> subst h <;> decide

/-- `specFirstOccur` depends on the seen set only through membership. -/
theorem specFirstOccur_congr (l : List String) :
    ∀ s1 s2 : List String, (∀ x, x ∈ s1 ↔ x ∈ s2) →
      specFirstOccur s1 l = specFirstOccur s2 l := by
  induction l with
  | nil => intro s1 s2 _; rfl
  | cons t ts ih =>
    intro s1 s2 hx
    rw [specFirstOccur_cons, specFirstOccur_cons]
    by_cases h : t ∈ s2
    · rw [if_pos ((hx t).mpr h), if_pos h]
      exact ih s1 s2 hx
    · rw [if_neg (fun hc => h ((hx t).mp hc)), if_neg h]
      rw [ih (t :: s1) (t :: s2) (fun x => by simp [List.mem_cons, hx x])]

/-- The emitted target types are the first occurrences of the distinct
supported trigger types, mapped through the type table. -/
theorem convertLoop_types (pst : ℚ) :
    ∀ (trs : List ExitTrigger) (seen : List (String × String × ℚ)),
      (∀ t ∈ trs, isSupportedType t.type = true ∨ isUnsupportedType t.type = true) →
      (convertLoop pst seen trs).1.map (fun tg => tg.type) =
        (specFirstOccur (seen.map (fun p => p.1))
          ((trs.map (fun t => t.type)).filter isSupportedType)).map
            TRIGGER_TO_TARGET_TYPE := by
  intro trs
  induction trs with
  | nil => intro seen _; simp [convertLoop, specFirstOccur]
  | cons t ts ih =>
    intro seen hdom
    have hdom' : ∀ x ∈ ts, isSupportedType x.type = true ∨ isUnsupportedType x.type = true :=
      fun x hx => hdom x (List.mem_cons_of_mem _ hx)
    by_cases hu : isUnsupportedType t.type = true
    · have hsup : isSupportedType t.type = false := not_supported_of_unsupported _ hu
      simp only [convertLoop, hu, if_true, List.map_cons, List.filter_cons, hsup,
        Bool.false_eq_true, if_false]
      exact ih seen hdom'
    · have hsup : isSupportedType t.type = true := by
        rcases hdom t (List.mem_cons_self t ts) with h | h
        · exact h
        · exact absurd h hu
      cases hseen : lookupSeen seen t.type with
      | some pv =>
        have hmem : t.type ∈ seen.map (fun p => p.1) := by
          by_contra hc
          rw [← lookupSeen_eq_none_iff] at hc
          rw [hseen] at hc
          exact Option.noConfusion hc
        simp only [convertLoop, hu, Bool.false_eq_true, if_false, hseen,
          List.map_cons, List.filter_cons, hsup, if_true]
        rw [ih seen hdom', specFirstOccur_cons, if_pos hmem]
      | none =>
        have hmem : t.type ∉ seen.map (fun p => p.1) :=
          (lookupSeen_eq_none_iff seen t.type).mp hseen
        simp only [convertLoop, hu, Bool.false_eq_true, if_false, hseen,
          List.map_cons, List.filter_cons, hsup, if_true]
        rw [ih (seen ++ [(t.type, t.comparison, t.value)]) hdom']
        have happ : (seen ++ [(t.type, t.comparison, t.value)]).map (fun p => p.1)
            = seen.map (fun p => p.1) ++ [t.type] := by simp
        rw [happ]
        rw [specFirstOccur_congr _ (seen.map (fun p => p.1) ++ [t.type])
          (t.type :: seen.map (fun p => p.1))
          (fun x => by simp [List.mem_append, List.mem_cons, or_comm])]
        rw [specFirstOccur_cons, if_neg hmem]
        rfl

/-- Per-trigger accounting of the loop: one unsupported warning per
unsupported trigger, and one target or warning per trigger overall. -/
theorem convertLoop_counts (pst : ℚ) :
    ∀ (trs : List ExitTrigger) (seen : List (String × String × ℚ)),
      (convertLoop pst seen trs).2.1.length =
        (trs.filter (fun t => isUnsupportedType t.type)).length ∧
      (convertLoop pst seen trs).1.length + (convertLoop pst seen trs).2.1.length
        + (convertLoop pst seen trs).2.2.length = trs.length := by
  intro trs
  induction trs with
  | nil => intro seen; simp [convertLoop]
  | cons t ts ih =>
    intro seen
    by_cases hu : isUnsupportedType t.type = true
    · have h := ih seen
      simp only [convertLoop, hu, if_true, List.filter_cons, List.length_cons]
      refine ⟨?_, ?_⟩
      · simp only [List.length_cons, h.1]
      · omega
    · cases hseen : lookupSeen seen t.type with
      | some pv =>
        have h := ih seen
        simp only [convertLoop, hu, Bool.false_eq_true, if_false, hseen,
          List.filter_cons, List.length_cons]
        refine ⟨h.1, by omega⟩
      | none =>
        have h := ih (seen ++ [(t.type, t.comparison, t.value)])
        simp only [convertLoop, hu, Bool.false_eq_true, if_false, hseen,
          List.filter_cons, List.length_cons]
        refine ⟨h.1, by omega⟩

/-- A conflict warning is neither unsupported nor duplicate; and so on. -/
theorem conflict_not_unsupported (w : Warning) (h : isConflictWarning w = true) :
    isUnsupportedWarning w = false := by
  cases w <;> simp_all [isConflictWarning, isUnsupportedWarning]

theorem conflict_not_duplicate (w : Warning) (h : isConflictWarning w = true) :
    isDuplicateWarning w = false := by
  cases w <;> simp_all [isConflictWarning, isDuplicateWarning]

theorem unsupported_not_duplicate (w : Warning) (h : isUnsupportedWarning w = true) :
    isDuplicateWarning w = false := by
  cases w <;> simp_all [isUnsupportedWarning, isDuplicateWarning]

theorem duplicate_not_unsupported (w : Warning) (h : isDuplicateWarning w = true) :
    isUnsupportedWarning w = false := by
  cases w <;> simp_all [isDuplicateWarning, isUnsupportedWarning]

/-- Filtering the converter's warnings for `[Unsupported]` recovers
exactly the loop's unsupported warnings. -/
theorem convert_filter_unsupported (trs : List ExitTrigger) (pst : ℚ) :
    (convert_exit_triggers trs pst).2.filter isUnsupportedWarning =
      (convertLoop pst [] trs).2.1 := by
  show ((detect_conflicting_triggers trs ++ (convertLoop pst [] trs).2.1
      ++ (convertLoop pst [] trs).2.2).filter isUnsupportedWarning) = _
  rw [List.filter_append, List.filter_append]
  rw [List.filter_eq_nil_iff.mpr (fun w hw =>
    by simp [conflict_not_unsupported w (detect_isConflict trs w hw)])]
  rw [List.filter_eq_self.mpr (fun w hw =>
    (convertLoop_warning_classes pst trs []).1 w hw)]
  rw [List.filter_eq_nil_iff.mpr (fun w hw =>
    by simp [duplicate_not_unsupported w ((convertLoop_warning_classes pst trs []).2 w hw)])]
  simp

/-- Filtering the converter's warnings for duplicates recovers exactly
the loop's duplicate warnings. -/
theorem convert_filter_duplicate (trs : List ExitTrigger) (pst : ℚ) :
    (convert_exit_triggers trs pst).2.filter isDuplicateWarning =
      (convertLoop pst [] trs).2.2 := by
  show ((detect_conflicting_triggers trs ++ (convertLoop pst [] trs).2.1
      ++ (convertLoop pst [] trs).2.2).filter isDuplicateWarning) = _
  rw [List.filter_append, List.filter_append]
  rw [List.filter_eq_nil_iff.mpr (fun w hw =>
    by simp [conflict_not_duplicate w (detect_isConflict trs w hw)])]
  rw [List.filter_eq_nil_iff.mpr (fun w hw =>
    by simp [unsupported_not_duplicate w ((convertLoop_warning_classes pst trs []).1 w hw)])]
  rw [List.filter_eq_self.mpr (fun w hw =>
    (convertLoop_warning_classes pst trs []).2 w hw)]
  simp

/-- Unfolding `specKeptTargets` on a cons. -/
theorem specKeptTargets_cons (pst : ℚ) (seen : List String) (t : ExitTrigger)
    (ts : List ExitTrigger) :
    specKeptTargets pst seen (t :: ts) =
      if isSupportedType t.type = true ∧ t.type ∉ seen then
        { type := TRIGGER_TO_TARGET_TYPE t.type,
          operator := OPERATOR_MAP t.comparison,
          value := if t.type = "time" ∧ t.relative then pst + t.value else t.value }
          :: specKeptTargets pst (t.type :: seen) ts
      else specKeptTargets pst seen ts := rfl

/-- `specKeptTargets` depends on the seen set only through membership. -/
theorem specKeptTargets_congr (pst : ℚ) (trs : List ExitTrigger) :
    ∀ s1 s2 : List String, (∀ x, x ∈ s1 ↔ x ∈ s2) →
      specKeptTargets pst s1 trs = specKeptTargets pst s2 trs := by
  induction trs with
  | nil => intro s1 s2 _; rfl
  | cons t ts ih =>
    intro s1 s2 hx
    rw [specKeptTargets_cons, specKeptTargets_cons]
    by_cases hsup : isSupportedType t.type = true
    · by_cases h : t.type ∈ s2
      · have hn1 : ¬ (isSupportedType t.type = true ∧ t.type ∉ s1) :=
          fun hc => hc.2 ((hx t.type).mpr h)
        have hn2 : ¬ (isSupportedType t.type = true ∧ t.type ∉ s2) :=
          fun hc => hc.2 h
        rw [if_neg hn1, if_neg hn2]
        exact ih s1 s2 hx
      · have hp1 : isSupportedType t.type = true ∧ t.type ∉ s1 :=
          ⟨hsup, fun hc => h ((hx t.type).mp hc)⟩
        have hp2 : isSupportedType t.type = true ∧ t.type ∉ s2 := ⟨hsup, h⟩
        rw [if_pos hp1, if_pos hp2]
        rw [ih (t.type :: s1) (t.type :: s2) (fun x => by simp [List.mem_cons, hx x])]
    · have hn1 : ¬ (isSupportedType t.type = true ∧ t.type ∉ s1) := fun hc => hsup hc.1
      have hn2 : ¬ (isSupportedType t.type = true ∧ t.type ∉ s2) := fun hc => hsup hc.1
      rw [if_neg hn1, if_neg hn2]
      exact ih s1 s2 hx

/-- The loop emits, for each distinct supported type in first-occurrence
order, the target built from the first trigger of that type. -/
theorem convertLoop_kept (pst : ℚ) :
    ∀ (trs : List ExitTrigger) (seen : List (String × String × ℚ)),
      (∀ t ∈ trs, isSupportedType t.type = true ∨ isUnsupportedType t.type = true) →
      (convertLoop pst seen trs).1 =
        specKeptTargets pst (seen.map (fun p => p.1)) trs := by
  intro trs
  induction trs with
  | nil => intro seen _; rfl
  | cons t ts ih =>
    intro seen hdom
    have hdom' : ∀ x ∈ ts, isSupportedType x.type = true ∨ isUnsupportedType x.type = true :=
      fun x hx => hdom x (List.mem_cons_of_mem _ hx)
    by_cases hu : isUnsupportedType t.type = true
    · have hsup : isSupportedType t.type = false := not_supported_of_unsupported _ hu
      simp only [convertLoop, hu, if_true]
      have hn : ¬ (isSupportedType t.type = true ∧
          t.type ∉ seen.map (fun p => p.1)) :=
        fun hc => by rw [hsup] at hc; exact Bool.false_ne_true hc.1
      rw [specKeptTargets_cons, if_neg hn]
      exact ih seen hdom'
    · have hsup : isSupportedType t.type = true := by
        rcases hdom t (List.mem_cons_self t ts) with h | h
        · exact h
        · exact absurd h hu
      cases hseen : lookupSeen seen t.type with
      | some pv =>
        have hmem : t.type ∈ seen.map (fun p => p.1) := by
          by_contra hc
          rw [← lookupSeen_eq_none_iff] at hc
          rw [hseen] at hc
          exact Option.noConfusion hc
        simp only [convertLoop, hu, Bool.false_eq_true, if_false, hseen]
        have hn : ¬ (isSupportedType t.type = true ∧
            t.type ∉ seen.map (fun p => p.1)) :=
          fun hc => hc.2 hmem
        rw [specKeptTargets_cons, if_neg hn]
        exact ih seen hdom'
      | none =>
        have hmem : t.type ∉ seen.map (fun p => p.1) :=
          (lookupSeen_eq_none_iff seen t.type).mp hseen
        simp only [convertLoop, hu, Bool.false_eq_true, if_false, hseen]
        have hp : isSupportedType t.type = true ∧
            t.type ∉ seen.map (fun p => p.1) := ⟨hsup, hmem⟩
        rw [specKeptTargets_cons, if_pos hp]
        rw [ih (seen ++ [(t.type, t.comparison, t.value)]) hdom']
        have happ : (seen ++ [(t.type, t.comparison, t.value)]).map (fun p => p.1)
            = seen.map (fun p => p.1) ++ [t.type] := by simp
        rw [happ]
        rw [specKeptTargets_congr pst ts (seen.map (fun p => p.1) ++ [t.type])
          (t.type :: seen.map (fun p => p.1))
          (fun x => by simp [List.mem_append, List.mem_cons, or_comm])]

/-- C6: with trigger types drawn from the seven known kinds, the emitted
targets are exactly, for each distinct supported trigger type in
first-occurrence order, the target built from the *first* trigger of that
type (mapped type, mapped operator, relative-time-converted value); their
types follow the first-occurrence order through the type table; each
unsupported trigger costs one `[Unsupported]` warning; and every trigger
is accounted for as a target, an unsupported drop, or a duplicate drop. -/
theorem c6_dedup_filter (trs : List ExitTrigger) (pst : ℚ)
    (hdom : ∀ t ∈ trs, isSupportedType t.type = true ∨ isUnsupportedType t.type = true) :
    ((convert_exit_triggers trs pst).1 = specKeptTargets pst [] trs) ∧
    ((convert_exit_triggers trs pst).1.map (fun tg => tg.type) =
      (specFirstOccur [] ((trs.map (fun t => t.type)).filter isSupportedType)).map
        TRIGGER_TO_TARGET_TYPE) ∧
    (((convert_exit_triggers trs pst).2.filter isUnsupportedWarning).length =
      (trs.filter (fun t => isUnsupportedType t.type)).length) ∧
    ((convert_exit_triggers trs pst).1.length
      + ((convert_exit_triggers trs pst).2.filter isUnsupportedWarning).length
      + ((convert_exit_triggers trs pst).2.filter isDuplicateWarning).length
      = trs.length) := by
  have htargets : (convert_exit_triggers trs pst).1 = (convertLoop pst [] trs).1 := rfl
  refine ⟨?_, ?_, ?_, ?_⟩
  · rw [htargets]
    exact convertLoop_kept pst trs [] hdom
  · rw [htargets]
    exact convertLoop_types pst trs [] hdom
  · rw [convert_filter_unsupported]
    exact (convertLoop_counts pst trs []).1
  · rw [htargets, convert_filter_unsupported, convert_filter_duplicate]
    exact (convertLoop_counts pst trs []).2

/-- C6 witness: `[weight>=36, weight>=30, piston_position>=50, time>=25]`
emits exactly `volumetric gte 36` (the first weight trigger's value, not
the duplicate's 30) then `time gte 25`, one unsupported warning, and
2 + 1 + 1 = 4 accounted triggers. -/
theorem c6_witness :
    ((convert_exit_triggers
      [⟨"weight", 36, false, ">="⟩, ⟨"weight", 30, false, ">="⟩,
       ⟨"piston_position", 50, false, ">="⟩, ⟨"time", 25, false, ">="⟩] 0).1 =
      [{ type := "volumetric", operator := "gte", value := 36 },
       { type := "time", operator := "gte", value := 25 }]) ∧
    (((convert_exit_triggers
      [⟨"weight", 36, false, ">="⟩, ⟨"weight", 30, false, ">="⟩,
       ⟨"piston_position", 50, false, ">="⟩, ⟨"time", 25, false, ">="⟩] 0).2.filter
        isUnsupportedWarning).length = 1) := by
  have h := c6_dedup_filter
    [⟨"weight", 36, false, ">="⟩, ⟨"weight", 30, false, ">="⟩,
     ⟨"piston_position", 50, false, ">="⟩, ⟨"time", 25, false, ">="⟩] 0
    (by decide)
  refine ⟨?_, ?_⟩
  · rw [h.1]
    decide
  · rw [h.2.2.1]
    decide

/-! ## Claim C10 -/

/-- The caller-visible document after `translate_profile` is whatever
`resolve_variables` left in place, on success and on every later
failure alike. -/
theorem translate_profile_callerDoc (doc : RawDoc) (mode : String) :
    (translate_profile doc mode).callerDoc =
      (match resolve_variables_default doc with
       | .error _ => doc
       | .ok (d, _) => d) := by
  unfold translate_profile
  split
  · rfl
  · repeat' split
    all_goals (dsimp only; split <;> rfl)

/-- C10: with a non-empty variable table whose stage resolution succeeds,
`translate_profile` leaves the caller's document object holding the
variable-resolved stages — whether the call returns a profile or raises —
because `resolve_variables` reassigns `data["stages"]` on that same
object. -/
theorem c10_inplace_mutation (doc : RawDoc) (mode : String) (ss : List RawStage)
    (hv : doc.varTable ≠ [])
    (hres : resolveStages doc RESOLVE_DEFAULT_MAX_DEPTH = .ok ss) :
    (translate_profile doc mode).callerDoc = { doc with stages := ss } := by
  have hne : doc.varTable.isEmpty = false := by
    cases h : doc.varTable with
    | nil => exact absurd h hv
    | cons a l => rfl
  have hrv : resolve_variables_default doc =
      .ok ({ doc with stages := ss },
        if (find_unused_variables { doc with stages := ss }).isEmpty then []
        else [.unused (find_unused_variables { doc with stages := ss })]) := by
    unfold resolve_variables_default resolve_variables
    rw [hne, hres]
    rfl
  rw [translate_profile_callerDoc, hrv]

/-- C10 witness: a document defining `x = 9` and referencing `$x` in a
curve point ends the call with the caller's document holding the resolved
stages, which differ from the original ones. -/
theorem c10_witness :
    ((translate_profile
        { name := "P", id := "i", author := "a", author_id := "ai",
          temperature := 93, final_weight := 36,
          varTable := [{ key := "x", value := PValue.num 9 }],
          stages :=
            [{ name := "S", key := "Extraction", type := "pressure",
               dynamics := { points := [{ t := PValue.num 0, v := PValue.str "$x" }],
                             interpolation := "linear" },
               exit_triggers := [], limits := [] }] } TRANSITION_MODE_SMART).callerDoc
      = { name := "P", id := "i", author := "a", author_id := "ai",
          temperature := 93, final_weight := 36,
          varTable := [{ key := "x", value := PValue.num 9 }],
          stages :=
            [{ name := "S", key := "Extraction", type := "pressure",
               dynamics := { points := [{ t := PValue.num 0, v := PValue.num 9 }],
                             interpolation := "linear" },
               exit_triggers := [], limits := [] }] }) ∧
    ([{ name := "S", key := "Extraction", type := "pressure",
        dynamics := { points := [{ t := PValue.num 0, v := PValue.num 9 }],
                      interpolation := "linear" },
        exit_triggers := [], limits := [] }] : List RawStage)
      ≠ [{ name := "S", key := "Extraction", type := "pressure",
           dynamics := { points := [{ t := PValue.num 0, v := PValue.str "$x" }],
                         interpolation := "linear" },
           exit_triggers := [], limits := [] }] := by
  constructor
  · exact c10_inplace_mutation _ TRANSITION_MODE_SMART _ (by decide) (by rfl)
  · decide
